import Mathlib

/-!
Verification of the LearnAid RAG pipeline (backend/app/services): the vector
store (`vector_service.py`), the PDF chunker (`pdf_service.py`) and the chatbot
orchestrator (`chatbot_service.py`), shallowly embedded in Lean.  Python dicts
are modelled as insertion-ordered association lists, floats as rationals, and
raised exceptions as `Except` / explicit error values.
-/

namespace LearnAid

/-! ## Python dictionaries

Insertion-ordered association lists with Python `d[k] = v` / `k in d` / `d[k]`
semantics: assignment replaces the value of an existing key in place and
appends a fresh key at the end. -/

/-- Python dict assignment `d[k] = v`. -/
def pyDictSet {κ : Type} {α : Type} [DecidableEq κ] : List (κ × α) → κ → α → List (κ × α)
  | [], k, v => [(k, v)]
  | (k1, v1) :: d, k, v => if k1 = k then (k1, v) :: d else (k1, v1) :: pyDictSet d k v

/-- Python dict lookup `d.get(k)` (also models `k in d` via `isSome`). -/
def pyDictGet {κ : Type} {α : Type} [DecidableEq κ] : List (κ × α) → κ → Option α
  | [], _ => none
  | (k1, v) :: d, k => if k1 = k then some v else pyDictGet d k

/-! ## Metadata values and dicts (`Dict[str, Any]` as used by the services) -/

/-- A scalar metadata value as passed through the services. -/
inductive MetaVal where
  | str (s : String)
  | int (n : Int)
  | null
deriving DecidableEq, Repr

/-- A Python `Dict[str, Any]` of scalars. -/
abbrev PyDict := List (String × MetaVal)

/-! ## `SearchResult` (vector_service.py, class SearchResult) -/

/-- `SearchResult`: search hit with relevance score (a FAISS squared-L2
distance, modelled as a rational). -/
structure SearchResult where
  content : String
  metadata : PyDict
  score : ℚ
  source_file : String
  course_id : Int
  chapter_name : String
deriving DecidableEq, Repr

/-! ## Confidence scoring (chatbot_service.py, `ChatbotService._calculate_confidence`) -/

/-- `ChatbotService._calculate_confidence`: 0.1 on empty results, otherwise
`avg_score * 0.4 + content_quality * 0.3 + min(num_results / 3, 1) * 0.3`
capped at 0.95, where `avg_score` is the mean of `1 / (1 + score)` and
`content_quality = min(total content chars / 1000, 1)`. -/
def calculate_confidence (search_results : List SearchResult) : ℚ :=
  if search_results.isEmpty then 1/10
  else
    let num_results : ℚ := search_results.length
    let avg_score : ℚ :=
      ((search_results.map (fun r => 1 / (1 + r.score))).sum) / num_results
    let content_quality : ℚ :=
      min (((search_results.map (fun r => ((r.content.length : ℚ)))).sum) / 1000) 1
    let confidence := avg_score * (4/10) + content_quality * (3/10)
      + (min (num_results / 3) 1) * (3/10)
    min confidence (95/100)

/-! ## FAISS vector store (vector_service.py, class FAISSVectorStore) -/

/-- A Python dict key as it occurs in `FAISSVectorStore.metadata`: integer row
ids in memory, strings after a JSON round-trip. -/
inductive PyKey where
  | int (n : Int)
  | str (s : String)
deriving DecidableEq, Repr

/-- One value of the `FAISSVectorStore.metadata` dict (the per-chunk record
built in `add_documents`). -/
structure MetaEntry where
  content : String
  metadata : PyDict
  chunk_id : String
  source_file : String
  course_id : Int
  chapter_name : String
deriving DecidableEq, Repr

/-- `FAISSVectorStore.metadata`. -/
abbrev MetaDict := List (PyKey × MetaEntry)

/-- In-memory state of a `FAISSVectorStore`: an `IndexFlatL2` index holding the
row vectors, plus the metadata dict. -/
structure FAISSVectorStore where
  dimension : Nat
  vectors : List (List ℚ)
  metadata : MetaDict
deriving Repr

/-- Squared L2 distance, the score returned by `faiss.IndexFlatL2.search`. -/
def l2sq (a b : List ℚ) : ℚ := ((a.zip b).map (fun p => (p.1 - p.2) ^ 2)).sum

/-- Stable insertion by ascending distance. -/
def insertByDist (x : Nat × ℚ) : List (Nat × ℚ) → List (Nat × ℚ)
  | [] => [x]
  | y :: ys => if x.2 < y.2 then x :: y :: ys else y :: insertByDist x ys

/-- Stable sort by ascending distance: `faiss.IndexFlatL2.search` returns
neighbours in ascending distance order, ties broken by row id. -/
def sortByDist : List (Nat × ℚ) → List (Nat × ℚ)
  | [] => []
  | x :: xs => insertByDist x (sortByDist xs)

/-- `FAISSVectorStore.search`: an empty index returns `[]`; otherwise take the
`k` nearest row ids by squared L2 distance and keep each only if its row id is
a key of the metadata dict (`if idx in self.metadata`). -/
def FAISSVectorStore.search (store : FAISSVectorStore) (query_embedding : List ℚ)
    (k : Nat) : List SearchResult :=
  if store.vectors.isEmpty then []
  else
    let scored := (store.vectors.enum).map (fun p => (p.1, l2sq query_embedding p.2))
    let top := (sortByDist scored).take k
    top.filterMap (fun p =>
      (pyDictGet store.metadata (PyKey.int (p.1 : Int))).map (fun meta =>
        { content := meta.content, metadata := meta.metadata, score := p.2,
          source_file := meta.source_file, course_id := meta.course_id,
          chapter_name := meta.chapter_name }))

/-- JSON object keys are strings: `json.dump` stringifies the integer dict keys
and `json.load` reads them back as strings, never converting them back. -/
def jsonKey : PyKey → PyKey
  | .int n => .str (toString n)
  | .str s => .str s

/-- `FAISSVectorStore._save_index` followed by re-initialisation from the
written files (`_initialize_index`): `faiss.write_index`/`faiss.read_index`
round-trip the row vectors exactly, while the metadata dict goes through
`json.dump`/`json.load`, which maps every integer key to its string form. -/
def saveLoad (store : FAISSVectorStore) : FAISSVectorStore :=
  { store with metadata := store.metadata.map (fun p => (jsonKey p.1, p.2)) }

/-- `DocumentChunk` (vector_service.py). -/
structure DocumentChunk where
  content : String
  metadata : PyDict
  chunk_id : String
  source_file : String
  course_id : Int
  chapter_name : String
deriving DecidableEq, Repr

/-- The metadata record `add_documents` stores for one chunk. -/
def entryOfChunk (c : DocumentChunk) : MetaEntry :=
  { content := c.content, metadata := c.metadata, chunk_id := c.chunk_id,
    source_file := c.source_file, course_id := c.course_id,
    chapter_name := c.chapter_name }

/-- The metadata-assignment loop of `add_documents`:
`self.metadata[start_id + i] = {...}` for each chunk, `start_id` fixed before
the loop. -/
def addMetaGo : MetaDict → Nat → List DocumentChunk → MetaDict
  | m, _, [] => m
  | m, key, c :: cs => addMetaGo (pyDictSet m (PyKey.int (key : Int)) (entryOfChunk c)) (key + 1) cs

/-- `FAISSVectorStore.add_documents`: append the embeddings to the index and
store each chunk record under key `start_id + i`, `start_id = len(self.metadata)`. -/
def FAISSVectorStore.add_documents (store : FAISSVectorStore)
    (chunks : List DocumentChunk) (embeddings : List (List ℚ)) : FAISSVectorStore :=
  { store with
    vectors := store.vectors ++ embeddings,
    metadata := addMetaGo store.metadata store.metadata.length chunks }

/-! ## Embedding service (vector_service.py, class EmbeddingService) -/

/-- State of an `EmbeddingService`: whether `self.model` was initialised,
whether `model.encode` succeeds, and the embedding it computes when it does. -/
structure EmbeddingState where
  modelLoaded : Bool
  backendOk : Bool
  embedOf : String → List ℚ

/-- `EmbeddingService.encode_text`: `np.array([])` when the model is missing;
`try: model.encode(texts) except: np.array([])`.  The `Except` codomain
records that this function itself never raises. -/
def encode_text (st : EmbeddingState) (texts : List String) :
    Except String (List (List ℚ)) :=
  if !st.modelLoaded then .ok []
  else if !st.backendOk then .ok []
  else .ok (texts.map st.embedOf)

/-- `EmbeddingService.encode_single`:
`self.encode_text([text])[0] if self.model else np.array([])` — indexing `[0]`
into the empty array `encode_text` returns on failure raises `IndexError`. -/
def encode_single (st : EmbeddingState) (text : String) : Except String (List ℚ) :=
  if st.modelLoaded then
    match encode_text st [text] with
    | .ok [] => .error "IndexError"
    | .ok (e :: _) => .ok e
    | .error e => .error e
  else .ok []

/-! ## VectorStoreService (vector_service.py) -/

/-- `VectorStoreService.search_documents`: embed the query (the surrounding
`try/except` turns a raised `IndexError` into `[]`), return `[]` on an empty
embedding, over-fetch `k * 2` results, filter by course when `course_id` is
truthy (Python `if course_id:` — `None` and `0` both skip the filter), and
truncate to `k`. -/
def search_documents (st : EmbeddingState) (store : FAISSVectorStore)
    (query : String) (course_id : Option Int) (k : Nat) : List SearchResult :=
  match encode_single st query with
  | .error _ => []
  | .ok query_embedding =>
    if query_embedding.isEmpty then []
    else
      let results : List SearchResult := store.search query_embedding (k * 2)
      let filtered : List SearchResult :=
        match course_id with
        | some c => if c ≠ 0 then results.filter (fun r => decide (r.course_id = c)) else results
        | none => results
      filtered.take k

/-- Python `str.strip()` (on a list of characters). -/
def pyStrip (s : List Char) : List Char :=
  ((s.dropWhile Char.isWhitespace).reverse.dropWhile Char.isWhitespace).reverse

/-- The loop of `VectorStoreService.chunk_text`: window `[start, min(start +
chunk_size, len))`, append the stripped window, break when the window reaches
the end, else `start = end - overlap`.  The fuel argument only bounds the
number of iterations; `chunk_text` supplies enough for the loop to run to
completion (see `chunk_loops_terminate`). -/
def chunk_text_go (text : List Char) (chunk_size overlap : Nat) :
    Nat → Nat → List (List Char)
  | 0, _ => []
  | fuel + 1, start =>
    if start < text.length then
      let e := min (start + chunk_size) text.length
      let chunk := pyStrip ((text.drop start).take (e - start))
      chunk :: (if e = text.length then []
                else chunk_text_go text chunk_size overlap fuel (e - overlap))
    else []

/-- `VectorStoreService.chunk_text`: text no longer than `chunk_size` is a
single (unstripped) chunk, otherwise run the windowing loop. -/
def chunk_text (text : List Char) (chunk_size : Nat := 500) (overlap : Nat := 50) :
    List (List Char) :=
  if text.length ≤ chunk_size then [text]
  else chunk_text_go text chunk_size overlap (text.length + 1) 0

/-- The `DocumentChunk`-building loop of `VectorStoreService.index_document`.
Python binds `chunk_meta = metadata or {}` to the same dict object on every
iteration when `metadata` is truthy and `chunk_meta.update` mutates it in
place, so the dict is threaded through the loop; pydantic model validation
copies dict fields at construction, so each `DocumentChunk` keeps the snapshot
of its own iteration. -/
def build_doc_chunks_go (n : Nat) (source_file : String) (course_id : Int)
    (chapter_name : String) : PyDict → Nat → List String → List DocumentChunk
  | _, _, [] => []
  | shared, i, c :: cs =>
    let shared2 := pyDictSet (pyDictSet shared "chunk_index" (MetaVal.int (i : Int)))
      "total_chunks" (MetaVal.int (n : Int))
    { content := c, metadata := shared2,
      chunk_id := source_file ++ "_chunk_" ++ toString i,
      source_file := source_file, course_id := course_id,
      chapter_name := chapter_name }
      :: build_doc_chunks_go n source_file course_id chapter_name shared2 (i + 1) cs

/-- The chunk-record construction of `VectorStoreService.index_document`
(`metadata or {}` treats both `None` and the empty dict as the empty dict). -/
def build_doc_chunks (metadata : Option PyDict) (chunks : List String)
    (source_file : String) (course_id : Int) (chapter_name : String) :
    List DocumentChunk :=
  build_doc_chunks_go chunks.length source_file course_id chapter_name
    (metadata.getD []) 0 chunks

/-- `VectorStoreService.index_document`: chunk the content, build the
`DocumentChunk`s, embed all chunk texts in one batch, return `False` when the
embeddings come back empty, else add to the store and return `True`. -/
def index_document (st : EmbeddingState) (store : FAISSVectorStore)
    (content : List Char) (source_file : String) (course_id : Int)
    (chapter_name : String) (metadata : Option PyDict) : FAISSVectorStore × Bool :=
  let chunks := (chunk_text content).map (fun l => String.mk l)
  let doc_chunks := build_doc_chunks metadata chunks source_file course_id chapter_name
  match encode_text st (doc_chunks.map (fun c => c.content)) with
  | .error _ => (store, false)
  | .ok embeddings =>
    if embeddings.isEmpty then (store, false)
    else (store.add_documents doc_chunks embeddings, true)

/-! ## PDF chunker (pdf_service.py, `PDFProcessingService._create_content_chunks`) -/

/-- `ContentChunk` (pdf_service.py). -/
structure ContentChunk where
  chunk_id : String
  content : List Char
  page_number : Nat
  chunk_index : Nat
  word_count : Nat
deriving DecidableEq, Repr

/-- Python `s.rfind(' ')`: index of the last space, `-1` when there is none. -/
def pyRfindSpace (s : List Char) : Int :=
  match s.reverse.findIdx? (fun c => c == ' ') with
  | none => -1
  | some i => (s.length : Int) - 1 - (i : Int)

/-- Python `s.split()`: split on whitespace runs, dropping empty words. -/
def pySplitWs (s : List Char) : List (List Char) :=
  (s.splitOnP (fun c => c.isWhitespace)).filter (fun w => !w.isEmpty)

/-- Python `int(s)` restricted to the digit strings that occur in page
markers; `none` models a raised `ValueError`. -/
def parseNat? (s : List Char) : Option Nat :=
  if !s.isEmpty && s.all Char.isDigit
  then some (s.foldl (fun a c => a * 10 + (c.toNat - 48)) 0)
  else none

/-- One line test of `PDFProcessingService._estimate_page_number`:
`line.strip().startswith('--- Page ') and line.strip().endswith(' ---')`,
then `int(line.split()[2])`, skipping the line on `IndexError`/`ValueError`. -/
def pageMarkerNum? (line : List Char) : Option Nat :=
  let t := pyStrip line
  if ("--- Page ".toList).isPrefixOf t && (" ---".toList).isSuffixOf t then
    match (pySplitWs line).drop 2 with
    | w :: _ => parseNat? w
    | [] => none
  else none

/-- `PDFProcessingService._estimate_page_number`: first page marker found in
the chunk, defaulting to 1. -/
def estimate_page_number (chunk_content : List Char) : Nat :=
  match (chunk_content.splitOn '\n').findSome? pageMarkerNum? with
  | some n => n
  | none => 1

/-- Python `f"chunk_{i:03d}"` padding. -/
def padThree (n : Nat) : String :=
  let s := toString n
  if s.length < 3 then String.mk (List.replicate (3 - s.length) '0') ++ s else s

/-- The word-boundary snapping threshold `self.chunk_size * 0.8`:
`500 * 0.8` evaluates to exactly `400.0` in IEEE-754 double arithmetic, and
the integer comparands are exact in doubles, so the float comparison in the
source coincides with the integer comparison against 400. -/
def snapThreshold : Nat := 400

/-- One window of `PDFProcessingService._create_content_chunks`: tentative
window `[start_idx, min(start_idx + 500, len))`; when the window does not
reach the end of the content and does not end on a space, the end is retracted
to the last space of the window provided `last_space > start_idx + 400` —
where `last_space = chunk_content.rfind(' ')` is an offset relative to the
window start while `start_idx` is absolute, exactly as in the source.  Returns
the final `end_idx` and the unstripped chunk text. -/
def createWindow (content : List Char) (start_idx : Nat) : Nat × List Char :=
  let end0 := min (start_idx + 500) content.length
  let chunk0 := (content.drop start_idx).take (end0 - start_idx)
  if end0 < content.length && !(chunk0.getLast? == some ' ') then
    let last_space := pyRfindSpace chunk0
    if last_space > (start_idx : Int) + (snapThreshold : Int) then
      let end1 := start_idx + last_space.toNat
      (end1, (content.drop start_idx).take (end1 - start_idx))
    else (end0, chunk0)
  else (end0, chunk0)

/-- The start-offset update of the `_create_content_chunks` loop:
`start_idx = end_idx - self.chunk_overlap` (overlap 100), with the source's
guard resetting a negative start to `end_idx`. -/
def createNextStart (end_idx : Nat) : Nat :=
  let s : Int := (end_idx : Int) - 100
  if s < 0 then end_idx else s.toNat

/-- The loop of `PDFProcessingService._create_content_chunks`: take a window,
strip it, append it (with its running `chunk_index`) when non-empty, break
when the window reached the end, else advance to `createNextStart end_idx`. -/
def create_chunks_go (content : List Char) : Nat → Nat → Nat → List ContentChunk
  | 0, _, _ => []
  | fuel + 1, start_idx, chunk_index =>
    if start_idx < content.length then
      let w := createWindow content start_idx
      let end_idx := w.1
      let chunk_content := pyStrip w.2
      let head : List ContentChunk :=
        if chunk_content.isEmpty then []
        else [{ chunk_id := "chunk_" ++ padThree chunk_index,
                content := chunk_content,
                page_number := estimate_page_number chunk_content,
                chunk_index := chunk_index,
                word_count := (pySplitWs chunk_content).length }]
      let next_index := if chunk_content.isEmpty then chunk_index else chunk_index + 1
      if content.length ≤ end_idx then head
      else head ++ create_chunks_go content fuel (createNextStart end_idx) next_index
    else []

/-- `PDFProcessingService._create_content_chunks` (chunk size 500, overlap
100): empty/whitespace-only content yields no chunks; otherwise run the
windowing loop from offset 0. -/
def create_content_chunks (content : List Char) : List ContentChunk :=
  if (pyStrip content).isEmpty then []
  else create_chunks_go content (content.length + 1) 0 0

/-! ## PDF ingestion result reporting (pdf_service.py, `_store_in_vector_db`) -/

/-- Outcome of a Python call: a returned value or a raised exception. -/
inductive PyResult (α : Type) where
  | ok (a : α)
  | exn (msg : String)
deriving DecidableEq, Repr

/-- The call `vector_service.index_document_with_chunks(...)` made by
`PDFProcessingService._store_in_vector_db`: `VectorStoreService` defines no
method of that name (its method is `index_document`), so the attribute access
raises `AttributeError` on every invocation. -/
def index_document_with_chunks_call : PyResult Bool := .exn "AttributeError"

/-- The inner `try` of `PDFProcessingService._store_in_vector_db`: a result
returned by the vector-service call is passed through, while any exception it
raises is caught, logged as a warning, and reported as success — the source
reads `return True  # Return success even without vector database for now`. -/
def store_in_vector_db (vector_call : PyResult Bool) : Bool :=
  match vector_call with
  | .ok b => b
  | .exn _ => true

/-! ## Chatbot service (chatbot_service.py, class ChatbotService) -/

/-- The Groq client held by `GroqLLMService` (`None` when initialisation
failed). -/
structure LLMClient where
  api_key : String
deriving DecidableEq, Repr

/-- Python `needle in hay` on strings. -/
def strContains (hay needle : String) : Bool :=
  (List.range (hay.toList.length + 1)).any
    (fun i => needle.toList.isPrefixOf (hay.toList.drop i))

/-- The mock-vs-real guard in `ChatbotService.process_message`:
`not self.llm_service.client or "placeholder" in str(self.llm_service.client.api_key)`. -/
def usesMock (client : Option LLMClient) : Bool :=
  match client with
  | none => true
  | some c => strContains c.api_key "placeholder"

/-- Outcome of the real Groq chat-completion call. -/
inductive LLMOutcome where
  | success (text : String)
  | failure (msg : String)
deriving DecidableEq, Repr

/-- The fixed text `_generate_mock_response` returns when no search results
were retrieved. -/
def noContextMockAnswer : String :=
  "I understand you have a question about your course material. However, I couldn\x27t find specific content related to your question in the uploaded course materials. \n\nCould you please:\n1. Ask a more specific question about the topics covered in your course\n2. Make sure the relevant course materials have been uploaded by your instructor\n3. Try rephrasing your question using keywords from your syllabus\n\nI\x27m here to help you learn from your course materials!"

/-- `ChatbotService._generate_mock_response`: the fixed no-material text on
empty results, else a template built from the first result. -/
def generate_mock_response (search_results : List SearchResult)
    (user_message : String) : String :=
  match search_results with
  | [] => noContextMockAnswer
  | primary_source :: _ =>
    "Based on your course material from **" ++ primary_source.chapter_name
      ++ "**, I can help answer your question.\n\n"
      ++ primary_source.content.take 200 ++ "...\n\n"
      ++ "This information relates to your question about: \"" ++ user_message ++ "\"\n\n"
      ++ "**Key Points:**\n"
      ++ "• The content covers fundamental concepts in this area\n"
      ++ "• This material is from Chapter: " ++ primary_source.chapter_name ++ "\n"
      ++ "• You can find more details in the uploaded course materials\n\n"
      ++ "Would you like me to explain any specific part in more detail? I can help you understand these concepts better using your course materials."

/-- Step 3 of `ChatbotService.process_message`: use the mock response when the
client is missing or carries a placeholder key; otherwise invoke the Groq
backend, falling back to the mock response when that call raises.  The Boolean
records whether the generation backend was invoked. -/
def process_message_answer (client : Option LLMClient) (outcome : LLMOutcome)
    (search_results : List SearchResult) (user_message : String) : Bool × String :=
  if usesMock client then
    (false, generate_mock_response search_results user_message)
  else
    match outcome with
    | .success t => (true, t)
    | .failure _ => (true, generate_mock_response search_results user_message)

/-! ## Chat sessions (chatbot_service.py) -/

/-- `ChatMessage` (timestamps abstracted to clock ticks). -/
structure ChatMessage where
  message_id : String
  content : String
  role : String
  timestamp : Nat
  metadata : PyDict
deriving DecidableEq, Repr

/-- `ChatSession`. -/
structure ChatSession where
  session_id : String
  student_id : Int
  course_id : Option Int
  messages : List ChatMessage
  created_at : Nat
  updated_at : Nat
deriving DecidableEq, Repr

/-- `ChatbotService.active_sessions`. -/
abbrev SessionStore := List (String × ChatSession)

/-- `ChatbotService._update_chat_session`: auto-create the session when the id
is unknown, then append the user message and the assistant message (ids
`f"{session_id}_{len(session.messages)}"`) and bump `updated_at`. -/
def update_chat_session (store : SessionStore) (session_id : String)
    (student_id : Int) (course_id : Option Int)
    (user_message ai_response : String) (now : Nat) : SessionStore :=
  let store1 :=
    if (pyDictGet store session_id).isSome then store
    else pyDictSet store session_id
      { session_id := session_id, student_id := student_id, course_id := course_id,
        messages := [], created_at := now, updated_at := now }
  match pyDictGet store1 session_id with
  | none => store1
  | some session =>
    let user_msg : ChatMessage :=
      { message_id := session_id ++ "_" ++ toString session.messages.length,
        content := user_message, role := "user", timestamp := now, metadata := [] }
    let messages1 := session.messages ++ [user_msg]
    let ai_msg : ChatMessage :=
      { message_id := session_id ++ "_" ++ toString messages1.length,
        content := ai_response, role := "assistant", timestamp := now, metadata := [] }
    pyDictSet store1 session_id
      { session with messages := messages1 ++ [ai_msg], updated_at := now }

/-- `ChatbotService.get_chat_history`: `self.active_sessions.get(session_id)`. -/
def get_chat_history (store : SessionStore) (session_id : String) :
    Option ChatSession :=
  pyDictGet store session_id

/-! ## Fixtures for witnesses and counterexamples -/

/-- Fixture: metadata entry stored at integer row id 0. -/
def rtEntry : MetaEntry :=
  { content := "neural networks", metadata := [], chunk_id := "notes.pdf_chunk_0",
    source_file := "notes.pdf", course_id := 1, chapter_name := "ch1" }

/-- Fixture: a store holding one indexed vector `[0]` under row id 0. -/
def rtStore : FAISSVectorStore :=
  { dimension := 1, vectors := [[0]], metadata := [(PyKey.int 0, rtEntry)] }

/-- Fixture: the search result `rtStore` yields for query `[0]`. -/
def rtResult : SearchResult :=
  { content := "neural networks", metadata := [], score := 0,
    source_file := "notes.pdf", course_id := 1, chapter_name := "ch1" }

/-- Fixture: embedding state with a working model mapping every text to `[0]`. -/
def stGood : EmbeddingState :=
  { modelLoaded := true, backendOk := true, embedOf := fun _ => [0] }

/-- Fixture: model loaded but `model.encode` raises. -/
def stBroken : EmbeddingState :=
  { modelLoaded := true, backendOk := false, embedOf := fun _ => [0] }

/-- Fixture: store whose only fragment belongs to course 5. -/
def course5Store : FAISSVectorStore :=
  { dimension := 1, vectors := [[0]],
    metadata := [(PyKey.int 0, { rtEntry with course_id := 5 })] }

/-- Fixture: 901 characters of text whose only spaces sit at offsets 499 and
850. -/
def badContent : List Char :=
  List.replicate 499 'a' ++ ' ' :: (List.replicate 350 'a' ++ ' ' :: List.replicate 50 'a')

/-- Fixture: a one-element search-result list used to instantiate theorems. -/
def sampleResult : SearchResult :=
  { content := "abc", metadata := [], score := 1, source_file := "f.pdf",
    course_id := 1, chapter_name := "ch1" }

/-- Fixture list for witnesses. -/
def sampleResults : List SearchResult := [sampleResult]

/-- Fixture: a Groq client configured with a real (non-placeholder) API key. -/
def realClient : Option LLMClient := some { api_key := "gsk_live_abc123" }

/-- Fixture: a freshly created empty vector store. -/
def emptyStore : FAISSVectorStore := { dimension := 384, vectors := [], metadata := [] }

/-- Fixture: the single chunk `index_document` builds for the 11-character
document "hello world". -/
def helloChunk : DocumentChunk :=
  { content := "hello world",
    metadata := [("chunk_index", MetaVal.int 0), ("total_chunks", MetaVal.int 1)],
    chunk_id := "doc.pdf_chunk_0", source_file := "doc.pdf", course_id := 1,
    chapter_name := "ch" }

/-!
# Theorems
-/

theorem pyDictGet_set_self {κ α : Type} [DecidableEq κ] (d : List (κ × α)) (k : κ) (v : α) :
    pyDictGet (pyDictSet d k v) k = some v := by
  induction d with
  | nil => simp [pyDictSet, pyDictGet]
  | cons p d ih =>
    obtain ⟨k1, v1⟩ := p
    by_cases h : k1 = k <;> simp [pyDictSet, pyDictGet, h, ih]

theorem pyDictGet_set_ne {κ α : Type} [DecidableEq κ] (d : List (κ × α)) (k k2 : κ) (v : α)
    (h : k2 ≠ k) : pyDictGet (pyDictSet d k2 v) k = pyDictGet d k := by
  induction d with
  | nil => simp [pyDictSet, pyDictGet, h]
  | cons p d ih =>
    by_cases h1 : p.1 = k2 <;> simp [pyDictSet, pyDictGet, h1, ih]
    · subst h1; simp [pyDictGet, h]

/-- C1 code_bug: save/load does not round-trip search results.  Before saving,
`search([0], 1)` on `rtStore` returns its stored fragment with score 0; after
`_save_index` and re-initialisation from the written files, the identical
search returns `[]`, because `json.dump` turned the integer metadata keys into
strings and the `idx in self.metadata` membership test in `search` now fails
for every FAISS row id. -/
theorem save_load_search_not_roundtrip :
    rtStore.search [0] 1 = [rtResult]
    ∧ (saveLoad rtStore).search [0] 1 = []
    ∧ saveLoad rtStore = { rtStore with metadata := [(PyKey.str "0", rtEntry)] } := by
  refine ⟨?_, ?_, ?_⟩
  · simp [FAISSVectorStore.search, rtStore, rtResult, rtEntry, l2sq, sortByDist,
      insertByDist, pyDictGet, List.enum]
  · simp [FAISSVectorStore.search, saveLoad, jsonKey, rtStore, rtEntry, l2sq,
      sortByDist, insertByDist, pyDictGet, List.enum]
  · simp [saveLoad, jsonKey, rtStore]
    rfl

/-- C2 code_bug: a failure to store a document's chunks is silently swallowed.
`_store_in_vector_db` calls `vector_service.index_document_with_chunks`, a
method `VectorStoreService` does not define, so the call raises
`AttributeError` on every document; the surrounding `except` catches it and
returns `True`, reporting success although nothing was indexed. -/
theorem store_in_vector_db_swallows_failure :
    index_document_with_chunks_call = PyResult.exn "AttributeError"
    ∧ store_in_vector_db index_document_with_chunks_call = true :=
  ⟨rfl, rfl⟩

/-- C3 counterexample: with the model loaded but the embedding backend
failing, `encode_single` does not return an empty array — `encode_text`
returns the empty array and indexing `[0]` into it raises `IndexError`. -/
theorem encode_single_raises_counterexample :
    encode_single stBroken "query" = Except.error "IndexError" := rfl

/-- C3 amended: `encode_text` returns an empty array rather than raising when
the backend is unavailable or fails; `encode_single` returns an empty array
when the model is unavailable but raises `IndexError` when the model is loaded
and encoding fails; and `search_documents` returns `[]` (without raising) in
all of these cases, its `try/except` catching the `IndexError`. -/
theorem encode_degrades_amended (st : EmbeddingState) (texts : List String)
    (store : FAISSVectorStore) (query : String) (course_id : Option Int) (k : Nat)
    (hbad : st.modelLoaded = false ∨ st.backendOk = false) :
    encode_text st texts = Except.ok []
    ∧ encode_single st query
        = (if st.modelLoaded then Except.error "IndexError" else Except.ok [])
    ∧ search_documents st store query course_id k = [] := by
  by_cases hm : st.modelLoaded
  · have hb : st.backendOk = false := by
      rcases hbad with h | h
      · rw [hm] at h; exact absurd h (by simp)
      · exact h
    refine ⟨?_, ?_, ?_⟩
    · simp [encode_text, hb]
    · simp [encode_single, encode_text, hm, hb]
    · simp [search_documents, encode_single, encode_text, hm, hb]
  · have hm2 : st.modelLoaded = false := by simpa using hm
    refine ⟨?_, ?_, ?_⟩
    · simp [encode_text, hm2]
    · simp [encode_single, hm2]
    · simp [search_documents, encode_single, hm2]

/-- Concrete instantiation of `encode_degrades_amended` at `stBroken` (model
loaded, backend failing). -/
theorem encode_degrades_amended_witness :
    (stBroken.modelLoaded = false ∨ stBroken.backendOk = false)
    ∧ (encode_text stBroken ["t"] = Except.ok []
       ∧ encode_single stBroken "q"
           = (if stBroken.modelLoaded then Except.error "IndexError" else Except.ok [])
       ∧ search_documents stBroken rtStore "q" none 5 = []) :=
  ⟨Or.inr rfl, encode_degrades_amended stBroken ["t"] rtStore "q" none 5 (Or.inr rfl)⟩

/-- C4 counterexample: with a real (non-placeholder) Groq client and an empty
retrieved context, `process_message` invokes the generation backend and
returns its text, not the fixed templated answer. -/
theorem empty_context_invokes_backend_counterexample :
    (process_message_answer realClient (LLMOutcome.success "llm text") [] "q").1 = true
    ∧ (process_message_answer realClient (LLMOutcome.success "llm text") [] "q").2
        = "llm text" := by
  refine ⟨rfl, rfl⟩

/-- C4 amended: when the Groq client is missing or carries a placeholder API
key, an empty retrieved context yields the fixed templated "no relevant
material found" answer, the generation backend is not invoked, and the
confidence is exactly 0.1. -/
theorem empty_context_mock_amended (client : Option LLMClient)
    (outcome : LLMOutcome) (user_message : String)
    (hmock : usesMock client = true) :
    process_message_answer client outcome [] user_message
      = (false, noContextMockAnswer)
    ∧ calculate_confidence [] = 1/10 := by
  refine ⟨?_, rfl⟩
  simp [process_message_answer, hmock, generate_mock_response]

/-- Concrete instantiation of `empty_context_mock_amended` with no client. -/
theorem empty_context_mock_amended_witness :
    usesMock none = true
    ∧ (process_message_answer none (LLMOutcome.success "x") [] "q"
        = (false, noContextMockAnswer)
       ∧ calculate_confidence [] = 1/10) :=
  ⟨rfl, empty_context_mock_amended none (LLMOutcome.success "x") "q" rfl⟩

/-- C6 counterexample: for `courseId = 0` the course filter is skipped —
Python `if course_id:` treats `0` like `None` — so a query restricted to
course 0 returns a fragment belonging to course 5. -/
theorem course_filter_skipped_for_zero :
    (search_documents stGood course5Store "q" (some 0) 1).map (fun r => r.course_id)
      = [5] := by
  simp [search_documents, encode_single, encode_text, stGood, FAISSVectorStore.search,
    course5Store, rtEntry, l2sq, sortByDist, insertByDist, pyDictGet, List.enum]

/-- C6 amended: for every nonzero `courseId = c`, `search_documents` fetches
`k * 2` candidates from the index, filters them to `course_id = c`, and
truncates to `k`; hence every returned result belongs to course `c` and at
most `k` results are returned.  (For `courseId = 0` the filter is skipped,
Python truthiness treating `0` like `None`.) -/
theorem search_documents_course_filter_amended (st : EmbeddingState)
    (store : FAISSVectorStore) (query : String) (c : Int) (k : Nat) (qe : List ℚ)
    (hc : c ≠ 0) (hq : encode_single st query = Except.ok qe) (hne : qe ≠ []) :
    search_documents st store query (some c) k
      = ((store.search qe (k * 2)).filter (fun r => decide (r.course_id = c))).take k
    ∧ (∀ r ∈ search_documents st store query (some c) k, r.course_id = c)
    ∧ (search_documents st store query (some c) k).length ≤ k := by
  have hemp : qe.isEmpty = false := by
    cases qe with
    | nil => exact absurd rfl hne
    | cons a l => rfl
  have heq : search_documents st store query (some c) k
      = ((store.search qe (k * 2)).filter (fun r => decide (r.course_id = c))).take k := by
    simp [search_documents, hq, hemp, hc]
  refine ⟨heq, ?_, ?_⟩
  · intro r hr
    rw [heq] at hr
    have hr2 : r ∈ (store.search qe (k * 2)).filter (fun r => decide (r.course_id = c)) :=
      List.mem_of_mem_take hr
    have h3 := List.of_mem_filter hr2
    exact of_decide_eq_true h3
  · rw [heq]
    simp [List.length_take]

/-- Concrete instantiation of `search_documents_course_filter_amended` at
course 5 over `course5Store`. -/
theorem search_documents_course_filter_amended_witness :
    (5 : Int) ≠ 0
    ∧ encode_single stGood "q" = Except.ok [0]
    ∧ ([0] : List ℚ) ≠ []
    ∧ (search_documents stGood course5Store "q" (some 5) 1
        = ((course5Store.search [0] (1 * 2)).filter
            (fun r => decide (r.course_id = 5))).take 1
       ∧ (∀ r ∈ search_documents stGood course5Store "q" (some 5) 1, r.course_id = 5)
       ∧ (search_documents stGood course5Store "q" (some 5) 1).length ≤ 1) := by
  refine ⟨by decide, rfl, by simp, ?_⟩
  exact search_documents_course_filter_amended stGood course5Store "q" 5 1 [0]
    (by decide) rfl (by simp)

set_option maxRecDepth 100000 in
/-- C7 code_bug: on `badContent` (901 characters whose only spaces sit at
offsets 499 and 850) the second window starts at 400 and spans `[400, 900)`;
its last space sits at window-relative offset 450, so retracting to it would
lose exactly 10% of the window — no more than 20% — yet the produced chunk
keeps all 500 characters and splits mid-word, because the source compares the
window-relative `last_space` against the absolute `start_idx + 400`.  (The
size-bound half of the claim holds: all produced chunks here have length at
most 500.) -/
theorem create_chunks_snap_bug :
    (create_content_chunks badContent).map (fun c => c.content.length) = [499, 500, 101]
    ∧ (createWindow badContent 400).1 = 900
    ∧ pyRfindSpace ((badContent.drop 400).take 500) = 450 := by
  refine ⟨?_, ?_, ?_⟩ <;> rfl

theorem createWindow_end_lb (content : List Char) (s : Nat)
    (h : (createWindow content s).1 < content.length) :
    s + 401 ≤ (createWindow content s).1 := by
  simp only [createWindow, snapThreshold] at h ⊢
  split_ifs at h ⊢ with hc hls
  · have : pyRfindSpace ((content.drop s).take (min (s + 500) content.length - s))
        > (s : Int) + (400 : Int) := hls
    omega
  · simp only [Bool.and_eq_true, decide_eq_true_eq] at hc
    omega
  · omega

theorem createNextStart_gt (content : List Char) (s : Nat)
    (h : (createWindow content s).1 < content.length) :
    s < createNextStart (createWindow content s).1 := by
  have hlb := createWindow_end_lb content s h
  simp only [createNextStart]
  split_ifs <;> omega

theorem chunk_text_go_fuel_succ (text : List Char) (cs ov : Nat) (h2 : ov < cs) :
    ∀ fuel start, text.length - start < fuel →
      chunk_text_go text cs ov fuel start = chunk_text_go text cs ov (fuel + 1) start := by
  intro fuel
  induction fuel with
  | zero => intro start h; omega
  | succ f ih =>
    intro start h
    by_cases hs : start < text.length
    · simp only [chunk_text_go, hs, if_true]
      by_cases he : min (start + cs) text.length = text.length
      · simp [he]
      · simp only [he, if_false]
        congr 1
        apply ih
        omega
    · simp only [chunk_text_go, hs, if_false]

theorem chunk_text_go_fuel_ge (text : List Char) (cs ov : Nat) (h2 : ov < cs) :
    ∀ d fuel start, text.length - start < fuel →
      chunk_text_go text cs ov fuel start = chunk_text_go text cs ov (fuel + d) start := by
  intro d
  induction d with
  | zero => intro fuel start h; rfl
  | succ n ih =>
    intro fuel start h
    rw [ih fuel start h, chunk_text_go_fuel_succ text cs ov h2 (fuel + n) start (by omega)]
    rfl

theorem create_chunks_go_fuel_succ (content : List Char) :
    ∀ fuel start ci, content.length - start < fuel →
      create_chunks_go content fuel start ci
        = create_chunks_go content (fuel + 1) start ci := by
  intro fuel
  induction fuel with
  | zero => intro start ci h; omega
  | succ f ih =>
    intro start ci h
    by_cases hs : start < content.length
    · simp only [create_chunks_go, hs, if_true]
      by_cases he : content.length ≤ (createWindow content start).1
      · simp [he]
      · simp only [he, if_false]
        congr 1
        have hnext := createNextStart_gt content start (by omega)
        apply ih
        omega
    · simp only [create_chunks_go, hs, if_false]

theorem create_chunks_go_fuel_ge (content : List Char) :
    ∀ d fuel start ci, content.length - start < fuel →
      create_chunks_go content fuel start ci
        = create_chunks_go content (fuel + d) start ci := by
  intro d
  induction d with
  | zero => intro fuel start ci h; rfl
  | succ n ih =>
    intro fuel start ci h
    rw [ih fuel start ci h, create_chunks_go_fuel_succ content (fuel + n) start ci (by omega)]
    rfl

/-- C9 confirmed: for `0 < overlap < chunk_size` both chunking loops
terminate.  In `chunk_text`, while the window does not reach the end of the
text the next start `min(start + chunk_size, len) - overlap` strictly exceeds
`start`; in `_create_content_chunks` (size 500, overlap 100) the next start
`createNextStart end_idx` strictly exceeds the current one whenever content
remains; consequently both loop computations are independent of the fuel
bound once it exceeds the content length — the loops run to completion. -/
theorem chunk_loops_terminate (text : List Char) (chunk_size overlap : Nat)
    (start fuel start2 : Nat)
    (_h1 : 0 < overlap) (h2 : overlap < chunk_size)
    (hrem : start + chunk_size < text.length)
    (hfuel : text.length < fuel)
    (hrem2 : (createWindow text start2).1 < text.length) :
    start < min (start + chunk_size) text.length - overlap
    ∧ chunk_text_go text chunk_size overlap fuel 0
        = chunk_text_go text chunk_size overlap (text.length + 1) 0
    ∧ start2 < createNextStart (createWindow text start2).1
    ∧ create_chunks_go text fuel 0 0
        = create_chunks_go text (text.length + 1) 0 0 := by
  refine ⟨by omega, ?_, createNextStart_gt text start2 hrem2, ?_⟩
  · have h := chunk_text_go_fuel_ge text chunk_size overlap h2
      (fuel - (text.length + 1)) (text.length + 1) 0 (by omega)
    have he : (text.length + 1) + (fuel - (text.length + 1)) = fuel := by omega
    rw [he] at h
    exact h.symm
  · have h := create_chunks_go_fuel_ge text
      (fuel - (text.length + 1)) (text.length + 1) 0 0 (by omega)
    have he : (text.length + 1) + (fuel - (text.length + 1)) = fuel := by omega
    rw [he] at h
    exact h.symm

set_option maxRecDepth 100000 in
/-- Concrete instantiation of `chunk_loops_terminate` on `badContent` with
`chunk_size = 5`, `overlap = 2`. -/
theorem chunk_loops_terminate_witness :
    0 < 2 ∧ 2 < 5 ∧ 0 + 5 < badContent.length ∧ badContent.length < 903
    ∧ (createWindow badContent 0).1 < badContent.length
    ∧ (0 < min (0 + 5) badContent.length - 2
       ∧ chunk_text_go badContent 5 2 903 0
           = chunk_text_go badContent 5 2 (badContent.length + 1) 0
       ∧ 0 < createNextStart (createWindow badContent 0).1
       ∧ create_chunks_go badContent 903 0 0
           = create_chunks_go badContent (badContent.length + 1) 0 0) := by
  have hlen : badContent.length = 901 := rfl
  have hw : (createWindow badContent 0).1 = 500 := rfl
  refine ⟨by omega, by omega, by omega, by omega, by omega, ?_⟩
  exact chunk_loops_terminate badContent 5 2 0 903 0 (by omega) (by omega)
    (by omega) (by omega) (by omega)

/-- C5 confirmed: for every non-empty list of search results with non-negative
scores, `_calculate_confidence` equals
`min(0.4 * mean(1/(1+score)) + 0.3 * min(totalContextChars/1000, 1)
   + 0.3 * min(numFragments/3, 1), 0.95)`, always lies in `[0, 0.95]`, and the
empty list yields exactly `0.1`. -/
theorem calculate_confidence_spec (rs : List SearchResult) (hne : rs ≠ [])
    (hnn : ∀ r ∈ rs, 0 ≤ r.score) :
    calculate_confidence rs =
      min ((4/10) * (((rs.map (fun r => 1 / (1 + r.score))).sum) / (rs.length : ℚ))
        + (3/10) * min (((rs.map (fun r => ((r.content.length : ℚ)))).sum) / 1000) 1
        + (3/10) * min ((rs.length : ℚ) / 3) 1) (95/100)
    ∧ 0 ≤ calculate_confidence rs
    ∧ calculate_confidence rs ≤ 95/100
    ∧ calculate_confidence [] = 1/10 := by
  have hemp : rs.isEmpty = false := by
    cases rs with
    | nil => exact absurd rfl hne
    | cons a l => rfl
  have hlen : (0:ℚ) ≤ (rs.length : ℚ) := by positivity
  have hsum1 : (0:ℚ) ≤ (rs.map (fun r => 1 / (1 + r.score))).sum := by
    apply List.sum_nonneg
    intro x hx
    obtain ⟨r, hr, hrx⟩ := List.mem_map.mp hx
    have hs := hnn r hr
    have : (0:ℚ) < 1 + r.score := by linarith
    rw [← hrx]
    positivity
  have hsum2 : (0:ℚ) ≤ (rs.map (fun r => ((r.content.length : ℚ)))).sum := by
    apply List.sum_nonneg
    intro x hx
    obtain ⟨r, hr, hrx⟩ := List.mem_map.mp hx
    rw [← hrx]
    positivity
  have havg : (0:ℚ) ≤ ((rs.map (fun r => 1 / (1 + r.score))).sum) / (rs.length : ℚ) :=
    div_nonneg hsum1 hlen
  have hcq : (0:ℚ) ≤ min (((rs.map (fun r => ((r.content.length : ℚ)))).sum) / 1000) 1 :=
    le_min (by positivity) (by norm_num)
  have hnr : (0:ℚ) ≤ min ((rs.length : ℚ) / 3) 1 :=
    le_min (by positivity) (by norm_num)
  have hbody : (0:ℚ) ≤
      ((rs.map (fun r => 1 / (1 + r.score))).sum) / (rs.length : ℚ) * (4/10)
      + min (((rs.map (fun r => ((r.content.length : ℚ)))).sum) / 1000) 1 * (3/10)
      + min ((rs.length : ℚ) / 3) 1 * (3/10) := by
    have h1 := mul_nonneg havg (by norm_num : (0:ℚ) ≤ 4/10)
    have h2 := mul_nonneg hcq (by norm_num : (0:ℚ) ≤ 3/10)
    have h3 := mul_nonneg hnr (by norm_num : (0:ℚ) ≤ 3/10)
    linarith
  refine ⟨?_, ?_, ?_, ?_⟩
  · simp only [calculate_confidence, hemp, if_false, Bool.false_eq_true]
    congr 1
    ring
  · simp only [calculate_confidence, hemp, if_false, Bool.false_eq_true]
    exact le_min hbody (by norm_num)
  · simp only [calculate_confidence, hemp, if_false, Bool.false_eq_true]
    exact min_le_right _ _
  · rfl

/-- Concrete instantiation of `calculate_confidence_spec` at a one-element
result list with score 1. -/
theorem calculate_confidence_spec_witness :
    sampleResults ≠ []
    ∧ (∀ r ∈ sampleResults, 0 ≤ r.score)
    ∧ (calculate_confidence sampleResults =
      min ((4/10) * (((sampleResults.map (fun r => 1 / (1 + r.score))).sum)
            / (sampleResults.length : ℚ))
        + (3/10) * min (((sampleResults.map (fun r => ((r.content.length : ℚ)))).sum) / 1000) 1
        + (3/10) * min ((sampleResults.length : ℚ) / 3) 1) (95/100)
      ∧ 0 ≤ calculate_confidence sampleResults
      ∧ calculate_confidence sampleResults ≤ 95/100
      ∧ calculate_confidence [] = 1/10) := by
  have h1 : sampleResults ≠ [] := by simp [sampleResults]
  have h2 : ∀ r ∈ sampleResults, 0 ≤ r.score := by
    intro r hr
    simp only [sampleResults, List.mem_singleton] at hr
    rw [hr]
    norm_num [sampleResult]
  exact ⟨h1, h2, calculate_confidence_spec sampleResults h1 h2⟩

theorem build_doc_chunks_go_chunk_index (n : Nat) (sf : String) (cid : Int) (cn : String) :
    ∀ (cs : List String) (shared : PyDict) (i0 j : Nat) (c : DocumentChunk),
      (build_doc_chunks_go n sf cid cn shared i0 cs)[j]? = some c →
      pyDictGet c.metadata "chunk_index" = some (MetaVal.int ((i0 + j : Nat) : Int)) := by
  intro cs
  induction cs with
  | nil =>
    intro shared i0 j c h
    simp [build_doc_chunks_go] at h
  | cons x cs ih =>
    intro shared i0 j c h
    cases j with
    | zero =>
      simp only [build_doc_chunks_go, List.getElem?_cons_zero, Option.some.injEq] at h
      subst h
      rw [Nat.add_zero]
      rw [pyDictGet_set_ne _ _ _ _ (by decide)]
      exact pyDictGet_set_self _ _ _
    | succ j =>
      simp only [build_doc_chunks_go, List.getElem?_cons_succ] at h
      have h2 := ih _ (i0 + 1) j c h
      rw [show i0 + (j + 1) = (i0 + 1) + j by omega]
      exact h2

theorem addMetaGo_lookup_lt :
    ∀ (cs : List DocumentChunk) (m : MetaDict) (key : Nat) (k2 : Int),
      k2 < (key : Int) →
      pyDictGet (addMetaGo m key cs) (PyKey.int k2) = pyDictGet m (PyKey.int k2) := by
  intro cs
  induction cs with
  | nil => intro m key k2 h; rfl
  | cons c cs ih =>
    intro m key k2 h
    simp only [addMetaGo]
    rw [ih _ (key + 1) k2 (by push_cast; omega)]
    refine pyDictGet_set_ne _ _ _ _ ?_
    intro he
    rw [PyKey.int.injEq] at he
    omega

theorem addMetaGo_lookup :
    ∀ (cs : List DocumentChunk) (m : MetaDict) (key i : Nat) (c : DocumentChunk),
      cs[i]? = some c →
      pyDictGet (addMetaGo m key cs) (PyKey.int ((key + i : Nat) : Int))
        = some (entryOfChunk c) := by
  intro cs
  induction cs with
  | nil => intro m key i c h; simp at h
  | cons x cs ih =>
    intro m key i c h
    cases i with
    | zero =>
      simp only [List.getElem?_cons_zero, Option.some.injEq] at h
      subst h
      simp only [addMetaGo, Nat.add_zero]
      rw [addMetaGo_lookup_lt cs _ (key + 1) ((key : Nat) : Int) (by push_cast; omega)]
      exact pyDictGet_set_self _ _ _
    | succ i =>
      simp only [List.getElem?_cons_succ] at h
      simp only [addMetaGo]
      have h2 := ih (pyDictSet m (PyKey.int (key : Int)) (entryOfChunk x)) (key + 1) i c h
      rw [show ((key + (i + 1) : Nat) : Int) = (((key + 1) + i : Nat) : Int) by push_cast; omega]
      exact h2

/-- C8 confirmed: for every document indexed via `index_document`, the chunk
at position `i` carries metadata recording `chunk_index = i` — its own 0-based
position — and the store after a successful `index_document` holds, under key
`start_id + i`, exactly that chunk's record.  (Python binds `chunk_meta =
metadata or {}` to one shared dict that `.update` mutates in place, but
pydantic validation copies dict fields at model construction, so each stored
snapshot keeps its own `chunk_index`.) -/
theorem index_document_chunk_index_own (st : EmbeddingState) (store : FAISSVectorStore)
    (content : List Char) (source_file : String) (course_id : Int)
    (chapter_name : String) (metadata : Option PyDict) (i : Nat) (c : DocumentChunk)
    (hc : (build_doc_chunks metadata ((chunk_text content).map (fun l => String.mk l))
            source_file course_id chapter_name)[i]? = some c)
    (hsucc : (index_document st store content source_file course_id chapter_name
      metadata).2 = true) :
    pyDictGet c.metadata "chunk_index" = some (MetaVal.int (i : Int))
    ∧ pyDictGet
        (index_document st store content source_file course_id chapter_name metadata).1.metadata
        (PyKey.int ((store.metadata.length + i : Nat) : Int)) = some (entryOfChunk c) := by
  constructor
  · have hc2 : (build_doc_chunks_go
        (((chunk_text content).map (fun l => String.mk l)).length) source_file course_id
        chapter_name (metadata.getD []) 0
        ((chunk_text content).map (fun l => String.mk l)))[i]? = some c := hc
    have h := build_doc_chunks_go_chunk_index _ source_file course_id chapter_name _ _ 0 i c hc2
    simpa using h
  · obtain ⟨v, hv⟩ : ∃ v, encode_text st ((build_doc_chunks metadata
        ((chunk_text content).map (fun l => String.mk l)) source_file course_id
        chapter_name).map (fun c => c.content)) = Except.ok v := by
      unfold encode_text
      split_ifs <;> exact ⟨_, rfl⟩
    simp only [index_document, hv] at hsucc ⊢
    by_cases hemp : v.isEmpty
    · simp [hemp] at hsucc
    · simp only [hemp, Bool.false_eq_true, if_false] at hsucc ⊢
      simp only [FAISSVectorStore.add_documents]
      exact addMetaGo_lookup _ _ _ i c hc

/-- Concrete instantiation of `index_document_chunk_index_own`: indexing
"hello world" into the empty store stores `helloChunk` with
`chunk_index = 0`. -/
theorem index_document_chunk_index_own_witness :
    (build_doc_chunks none ((chunk_text "hello world".toList).map (fun l => String.mk l))
        "doc.pdf" 1 "ch")[0]? = some helloChunk
    ∧ (index_document stGood emptyStore "hello world".toList "doc.pdf" 1 "ch" none).2 = true
    ∧ (pyDictGet helloChunk.metadata "chunk_index" = some (MetaVal.int ((0 : Nat) : Int))
       ∧ pyDictGet (index_document stGood emptyStore "hello world".toList "doc.pdf" 1
             "ch" none).1.metadata
           (PyKey.int ((emptyStore.metadata.length + 0 : Nat) : Int))
           = some (entryOfChunk helloChunk)) := by
  refine ⟨rfl, rfl, ?_⟩
  exact index_document_chunk_index_own stGood emptyStore "hello world".toList "doc.pdf"
    1 "ch" none 0 helloChunk rfl rfl

/-- C10 confirmed: asking the same question twice in one session (two
successful `process_message` calls running `_update_chat_session`) leaves the
session retrievable via `get_chat_history` with exactly 4 messages — 2 `user`
and 2 `assistant` — in the chronological order of the calls, the session
having been auto-created on its first use. -/
theorem same_question_twice_history (store : SessionStore) (session_id : String)
    (student_id : Int) (course_id : Option Int) (q a1 a2 : String) (now1 now2 : Nat)
    (hnew : pyDictGet store session_id = none) (hord : now1 ≤ now2) :
    ∃ s : ChatSession,
      get_chat_history (update_chat_session (update_chat_session store session_id
          student_id course_id q a1 now1) session_id student_id course_id q a2 now2)
        session_id = some s
      ∧ s.messages.map (fun m => (m.role, m.content))
          = [("user", q), ("assistant", a1), ("user", q), ("assistant", a2)]
      ∧ s.messages.length = 4
      ∧ (s.messages.filter (fun m => m.role == "user")).length = 2
      ∧ (s.messages.filter (fun m => m.role == "assistant")).length = 2
      ∧ s.messages.map (fun m => m.timestamp) = [now1, now1, now2, now2]
      ∧ List.Chain' (fun x y => x ≤ y) (s.messages.map (fun m => m.timestamp))
      ∧ s.created_at = now1 ∧ s.updated_at = now2 := by
  have e1 : update_chat_session store session_id student_id course_id q a1 now1
      = pyDictSet (pyDictSet store session_id
          { session_id := session_id, student_id := student_id, course_id := course_id,
            messages := [], created_at := now1, updated_at := now1 }) session_id
          { session_id := session_id, student_id := student_id, course_id := course_id,
            messages := [{ message_id := session_id ++ "_" ++ toString 0, content := q,
                           role := "user", timestamp := now1, metadata := [] },
                         { message_id := session_id ++ "_" ++ toString 1, content := a1,
                           role := "assistant", timestamp := now1, metadata := [] }],
            created_at := now1, updated_at := now1 } := by
    simp [update_chat_session, hnew, pyDictGet_set_self]
  have g1 : pyDictGet (update_chat_session store session_id student_id course_id q a1 now1)
      session_id = some
          { session_id := session_id, student_id := student_id, course_id := course_id,
            messages := [{ message_id := session_id ++ "_" ++ toString 0, content := q,
                           role := "user", timestamp := now1, metadata := [] },
                         { message_id := session_id ++ "_" ++ toString 1, content := a1,
                           role := "assistant", timestamp := now1, metadata := [] }],
            created_at := now1, updated_at := now1 } := by
    rw [e1]
    exact pyDictGet_set_self _ _ _
  have e2 : update_chat_session (update_chat_session store session_id student_id course_id
        q a1 now1) session_id student_id course_id q a2 now2
      = pyDictSet (update_chat_session store session_id student_id course_id q a1 now1)
          session_id
          { session_id := session_id, student_id := student_id, course_id := course_id,
            messages := [{ message_id := session_id ++ "_" ++ toString 0, content := q,
                           role := "user", timestamp := now1, metadata := [] },
                         { message_id := session_id ++ "_" ++ toString 1, content := a1,
                           role := "assistant", timestamp := now1, metadata := [] },
                         { message_id := session_id ++ "_" ++ toString 2, content := q,
                           role := "user", timestamp := now2, metadata := [] },
                         { message_id := session_id ++ "_" ++ toString 3, content := a2,
                           role := "assistant", timestamp := now2, metadata := [] }],
            created_at := now1, updated_at := now2 } := by
    generalize hA : update_chat_session store session_id student_id course_id q a1 now1 = A at g1 ⊢
    simp [update_chat_session, g1]
  have gfin : get_chat_history (update_chat_session (update_chat_session store session_id
        student_id course_id q a1 now1) session_id student_id course_id q a2 now2)
      session_id = some
        { session_id := session_id, student_id := student_id, course_id := course_id,
          messages := [{ message_id := session_id ++ "_" ++ toString 0, content := q,
                         role := "user", timestamp := now1, metadata := [] },
                       { message_id := session_id ++ "_" ++ toString 1, content := a1,
                         role := "assistant", timestamp := now1, metadata := [] },
                       { message_id := session_id ++ "_" ++ toString 2, content := q,
                         role := "user", timestamp := now2, metadata := [] },
                       { message_id := session_id ++ "_" ++ toString 3, content := a2,
                         role := "assistant", timestamp := now2, metadata := [] }],
          created_at := now1, updated_at := now2 } := by
    rw [get_chat_history, e2]
    exact pyDictGet_set_self _ _ _
  refine ⟨_, gfin, rfl, rfl, ?_, ?_, rfl, ?_, rfl, rfl⟩
  · simp [List.filter]
  · simp [List.filter]
  · simp [List.chain'_cons, hord]

/-- Concrete instantiation of `same_question_twice_history`: the question
asked twice in a fresh session "s1". -/
theorem same_question_twice_history_witness :
    pyDictGet ([] : SessionStore) "s1" = none
    ∧ (0 : Nat) ≤ 1
    ∧ (∃ s : ChatSession,
        get_chat_history (update_chat_session (update_chat_session [] "s1" 7 none
            "what is x" "ans one" 0) "s1" 7 none "what is x" "ans two" 1) "s1" = some s
        ∧ s.messages.map (fun m => (m.role, m.content))
            = [("user", "what is x"), ("assistant", "ans one"),
               ("user", "what is x"), ("assistant", "ans two")]
        ∧ s.messages.length = 4
        ∧ (s.messages.filter (fun m => m.role == "user")).length = 2
        ∧ (s.messages.filter (fun m => m.role == "assistant")).length = 2
        ∧ s.messages.map (fun m => m.timestamp) = [0, 0, 1, 1]
        ∧ List.Chain' (fun x y => x ≤ y) (s.messages.map (fun m => m.timestamp))
        ∧ s.created_at = 0 ∧ s.updated_at = 1) :=
  ⟨rfl, Nat.zero_le 1,
    same_question_twice_history [] "s1" 7 none "what is x" "ans one" "ans two" 0 1 rfl
      (Nat.zero_le 1)⟩

end LearnAid
